import Mathlib

/-!
Verification of the application-shell bootstrap in `src/server/app/app.py`.

The whole visible source is eleven lines of configuration wiring:

  app = FastAPI(middleware=[
      Middleware(CORSMiddleware, allow_origins=["*"], allow_methods=["*"],
                 allow_headers=["*"])])
  app.mount("/static", StaticFiles(directory="app/static"), name="static")
  templates = Jinja2Templates(directory="app/templates")

The framework constructs it delegates to (FastAPI, CORSMiddleware,
StaticFiles, Jinja2Templates) are not part of the repository, so their
request-time and construction-time behaviour is modelled from the
specification, while every configuration value (the wildcard policy, the
mount path, the two directory paths) is taken verbatim from the source.
-/

/-- A filesystem node: a directory, or a file with byte contents. -/
inductive FSNode where
  | dir : FSNode
  | file : List Nat → FSNode
deriving DecidableEq, Repr

/-- A filesystem is a finite association of absolute-ish path strings to
nodes; `app.py` names paths relative to the working directory, so keys
are strings like `"app/static"` or `"app/static/logo.png"`. -/
abbrev FileSystem := List (String × FSNode)

/-- Look a path up in the filesystem. -/
def FileSystem.lookup : FileSystem → String → Option FSNode
  | [], _ => none
  | (q, n) :: rest, p => if q = p then some n else FileSystem.lookup rest p

/-- Whether the path names an existing directory. -/
def FileSystem.isDir (fs : FileSystem) (p : String) : Bool :=
  match fs.lookup p with
  | some FSNode.dir => true
  | _ => false

/-- The cross-origin policy configuration handed to the middleware.
The four fields mirror the keyword arguments accepted by the
cross-origin middleware used on lines 7-9 of `app.py`; the credentials
flag is not passed there and so keeps the framework default `false`
(the spec: the policy comes "with no credential restriction specified"). -/
structure CORSConfig where
  allow_origins : List String
  allow_methods : List String
  allow_headers : List String
  allow_credentials : Bool
deriving DecidableEq, Repr

/-- The exact policy built on lines 7-9 of `app.py`:
`allow_origins=["*"], allow_methods=["*"], allow_headers=["*"]`,
credentials left at the default. -/
def appCorsConfig : CORSConfig :=
  { allow_origins := ["*"]
    allow_methods := ["*"]
    allow_headers := ["*"]
    allow_credentials := false }

/-- Modelled from the spec: the cross-origin middleware (external
framework code, absent from `src/`) permits an origin when the
configured origin list is the wildcard or lists it literally. -/
def originAllowed (c : CORSConfig) (origin : String) : Bool :=
  c.allow_origins.contains "*" || c.allow_origins.contains origin

/-- Modelled from the spec: a method is permitted when the configured
method list is the wildcard or lists it literally. -/
def methodAllowed (c : CORSConfig) (m : String) : Bool :=
  c.allow_methods.contains "*" || c.allow_methods.contains m

/-- Modelled from the spec: a request header is permitted when the
configured header list is the wildcard or lists it literally. -/
def headerAllowed (c : CORSConfig) (h : String) : Bool :=
  c.allow_headers.contains "*" || c.allow_headers.contains h

/-- All request headers permitted. -/
def headersAllowed (c : CORSConfig) (hs : List String) : Bool :=
  hs.all (headerAllowed c)

/-- An incoming HTTP request as the cross-origin policy sees it:
an optional Origin header, a method, the set of (custom) header names,
and the request path. -/
structure Request where
  origin : Option String
  method : String
  headers : List String
  path : String
deriving DecidableEq, Repr

/-- An HTTP response: status code, body bytes, response headers. -/
structure Response where
  status : Nat
  body : List Nat
  headers : List (String × String)
deriving DecidableEq, Repr

/-- Modelled from the spec: the cross-origin policy rejects a request
exactly when it carries an Origin and that origin, the method, or one
of the headers is not permitted by the configuration. -/
def corsRejects (c : CORSConfig) (r : Request) : Bool :=
  match r.origin with
  | none => false
  | some o =>
      !(originAllowed c o) || !(methodAllowed c r.method)
        || !(headersAllowed c r.headers)

/-- Modelled from the spec: the cross-origin headers the middleware
attaches to a response for a request carrying an Origin.  Wildcard
origins without credentials answer with the literal `*`; the
credentials grant appears only when the configuration enables it. -/
def corsResponseHeaders (c : CORSConfig) (r : Request) :
    List (String × String) :=
  match r.origin with
  | none => []
  | some o =>
      let allowOrigin :=
        if c.allow_origins.contains "*" && !c.allow_credentials then "*" else o
      let base := [("Access-Control-Allow-Origin", allowOrigin)]
      if c.allow_credentials then
        base ++ [("Access-Control-Allow-Credentials", "true")]
      else base

/-- The static-file sub-application constructed on line 11 of `app.py`:
it carries the configured directory path. -/
structure StaticFilesApp where
  directory : String
deriving DecidableEq, Repr

/-- Modelled from the spec: constructing the static-file
sub-application (external framework code, absent from `src/`)
checks at mount time that the configured directory exists, and fails
with a startup error when it does not — the fail-fast contract of the
static mount. -/
def StaticFiles.build (fs : FileSystem) (directory : String) :
    Except String StaticFilesApp :=
  if fs.isDir directory then Except.ok { directory := directory }
  else Except.error ("Directory does not exist: " ++ directory)

/-- Modelled from the spec: serving a request under the static mount
(external framework code, absent from `src/`).  The relative path is
resolved under the configured directory; an existing file answers with
status 200 and the file's exact bytes, anything else answers with the
not-found status 404 — never a server error. -/
def staticResponse (fs : FileSystem) (s : StaticFilesApp)
    (relPath : String) : Response :=
  match fs.lookup (s.directory ++ "/" ++ relPath) with
  | some (FSNode.file bytes) =>
      { status := 200, body := bytes, headers := [] }
  | _ => { status := 404, body := [], headers := [] }

/-- The template renderer constructed on line 12 of `app.py`: it carries
the configured directory path. -/
structure TemplatesState where
  directory : String
deriving DecidableEq, Repr

/-- Modelled from the spec: constructing the template renderer
(external templating collaborator, absent from `src/`) records the
directory; all template loading and rendering semantics are explicitly
deferred to the collaborator, so construction performs no filesystem
access and cannot fail. -/
def Jinja2Templates.build (directory : String) : TemplatesState :=
  { directory := directory }

/-- An application handle: the cross-origin policy installed at
construction, the mounted sub-applications (path, static app, name),
and the routes registered by later registration calls (none exist in
the given source). -/
structure AppState where
  cors : CORSConfig
  mounts : List (String × StaticFilesApp × String)
  routes : List String
deriving DecidableEq, Repr

/-- Lines 7-9 of `app.py`: construct the application object with the
single cross-origin middleware. -/
def createApp (cors : CORSConfig) : AppState :=
  { cors := cors, mounts := [], routes := [] }

/-- Line 11 of `app.py`: `app.mount(path, staticApp, name)` appends a
mount entry to the handle. -/
def AppState.mountStatic (a : AppState) (path : String)
    (s : StaticFilesApp) (name : String) : AppState :=
  { a with mounts := a.mounts ++ [(path, s, name)] }

/-- A registration call on a handle (the spec: handles are "mutated
only by registration calls"); no route handlers exist in the given
source, so a registration is just a named route appended to the
handle. -/
def AppState.registerRoute (a : AppState) (r : String) : AppState :=
  { a with routes := a.routes ++ [r] }

/-- The module-level mutable bindings of `app.py`: the `app` value and
the `templates` value, each absent before its defining line runs. -/
structure ModuleState where
  appVal : Option AppState
  templatesVal : Option TemplatesState
deriving DecidableEq, Repr

/-- Lines 7-9 of `app.py` as a statement: bind `app`. -/
def stmtCreateApp (s : ModuleState) : ModuleState :=
  { s with appVal := some (createApp appCorsConfig) }

/-- Line 11 of `app.py` as a statement:
`app.mount("/static", StaticFiles(directory="app/static"), name="static")`.
Constructing the static sub-application can fail fast. -/
def stmtMountStatic (fs : FileSystem) (s : ModuleState) :
    Except String ModuleState :=
  match s.appVal with
  | none => Except.error "app is not defined"
  | some a => do
      let st ← StaticFiles.build fs "app/static"
      Except.ok { s with appVal := some (a.mountStatic "/static" st "static") }

/-- Line 12 of `app.py` as a statement:
`templates = Jinja2Templates(directory="app/templates")`. -/
def stmtTemplates (s : ModuleState) : ModuleState :=
  { s with templatesVal := some (Jinja2Templates.build "app/templates") }

/-- Running the module body of `app.py` top to bottom over a given
filesystem: construct the application, mount the static directory
(which may fail fast), then construct the template renderer. -/
def moduleRun (fs : FileSystem) : Except String ModuleState := do
  let s1 := stmtCreateApp { appVal := none, templatesVal := none }
  let s2 ← stmtMountStatic fs s1
  Except.ok (stmtTemplates s2)

/-- The module state just after line 11, before the template renderer
is constructed. -/
def moduleRunThroughMount (fs : FileSystem) : Except String ModuleState := do
  let s1 := stmtCreateApp { appVal := none, templatesVal := none }
  stmtMountStatic fs s1

/-- Running the module body with the ambient process environment and
command line visible: `app.py` contains no read of either, so they are
accepted and ignored. -/
def moduleRunWithEnv (fs : FileSystem)
    (_env : List (String × String)) (_argv : List String) :
    Except String ModuleState :=
  moduleRun fs

/-- A process holds the application handles allocated so far; a handle
is referred to by its allocation index. -/
abbrev ProcState := List AppState

/-- `create_application`: allocate a fresh, independently constructed
handle in the process and return its index. -/
def create_application (p : ProcState) (cors : CORSConfig) :
    ProcState × Nat :=
  (p ++ [createApp cors], p.length)

/-- Read the handle at an index. -/
def getHandle (p : ProcState) (i : Nat) : Option AppState :=
  p.get? i

/-- Overwrite the handle at an index (no-op when out of range). -/
def setHandle : ProcState → Nat → AppState → ProcState
  | [], _, _ => []
  | _ :: rest, 0, a => a :: rest
  | b :: rest, Nat.succ j, a => b :: setHandle rest j a

/-- Perform a registration call through the handle at an index: the
mutation a later collaborator may apply to one handle. -/
def registerOn (p : ProcState) (i : Nat) (r : String) : ProcState :=
  match getHandle p i with
  | none => p
  | some a => setHandle p i (a.registerRoute r)

/-- The two lifecycle states of the application shell. -/
inductive ShellPhase where
  | unconfigured : ShellPhase
  | configured : ShellPhase
deriving DecidableEq, Repr

/-- The events a shell can undergo: the one-time configuration (running
the module body), a registration call, and serving a request. -/
inductive ShellEvent where
  | configure : ShellEvent
  | register : String → ShellEvent
  | serve : Request → ShellEvent
deriving DecidableEq, Repr

/-- Whether an event is the configuration step. -/
def isConfigureEvent : ShellEvent → Bool
  | ShellEvent.configure => true
  | _ => false

/-- Whether an event serves a request. -/
def isServeEvent : ShellEvent → Bool
  | ShellEvent.serve _ => true
  | _ => false

/-- Modelled from the spec: the shell's lifecycle step relation.
Configuration is only possible before the shell is configured;
registration calls and request serving require a configured shell;
no event ever takes the shell back to unconfigured. -/
def shellStep : ShellPhase → ShellEvent → Option ShellPhase
  | ShellPhase.unconfigured, ShellEvent.configure =>
      some ShellPhase.configured
  | ShellPhase.configured, ShellEvent.register _ =>
      some ShellPhase.configured
  | ShellPhase.configured, ShellEvent.serve _ =>
      some ShellPhase.configured
  | _, _ => none

/-- Run a list of events through the shell lifecycle; `none` when some
event is impossible in its state. -/
def shellRun : ShellPhase → List ShellEvent → Option ShellPhase
  | s, [] => some s
  | s, e :: es =>
      match shellStep s e with
      | some s2 => shellRun s2 es
      | none => none

/-- Whether the filesystem has a file (not a directory) at the path. -/
def isFileAt (fs : FileSystem) (p : String) : Bool :=
  match fs.lookup p with
  | some (FSNode.file _) => true
  | _ => false

/-- Overwriting one handle slot leaves every other slot unchanged. -/
theorem getHandle_setHandle_ne (p : ProcState) (i j : Nat) (a : AppState)
    (hij : i ≠ j) : getHandle (setHandle p i a) j = getHandle p j := by
  induction p generalizing i j with
  | nil => cases i <;> rfl
  | cons b rest ih =>
      cases i with
      | zero =>
          cases j with
          | zero => exact absurd rfl hij
          | succ k => rfl
      | succ i2 =>
          cases j with
          | zero => rfl
          | succ k =>
              have h2 : i2 ≠ k := by
                intro hc
                exact hij (by rw [hc])
              simpa [setHandle, getHandle] using
                ih i2 k (by exact h2)

/-- A registration call through one handle index leaves the handle at
any other index unchanged. -/
theorem registerOn_other (p : ProcState) (i j : Nat) (r : String)
    (hij : i ≠ j) : getHandle (registerOn p i r) j = getHandle p j := by
  unfold registerOn
  cases h : getHandle p i with
  | none => rfl
  | some a => exact getHandle_setHandle_ne p i j (a.registerRoute r) hij

/-- A run that starts configured never performs another configure
event. -/
theorem shellRun_configured_no_configure (es : List ShellEvent)
    (s' : ShellPhase)
    (h : shellRun ShellPhase.configured es = some s') :
    es.countP (fun e => isConfigureEvent e) = 0 := by
  induction es with
  | nil => rfl
  | cons e rest ih =>
      cases e with
      | configure => simp [shellRun, shellStep] at h
      | register r =>
          simp only [shellRun, shellStep] at h
          rw [List.countP_cons, ih h]
          rfl
      | serve req =>
          simp only [shellRun, shellStep] at h
          rw [List.countP_cons, ih h]
          rfl

/-- An empty filesystem: neither configured directory exists. -/
def fsEmpty : FileSystem := []

/-- A filesystem holding only the static-assets directory. -/
def fsStaticOnly : FileSystem := [("app/static", FSNode.dir)]

/-- A filesystem holding both configured directories and one static
file, `app/static/logo.png`. -/
def fsBoth : FileSystem :=
  [("app/static", FSNode.dir),
   ("app/templates", FSNode.dir),
   ("app/static/logo.png", FSNode.file [137, 80, 78, 71])]

/-- The module state produced by a successful run of `app.py`. -/
def msBoth : ModuleState :=
  { appVal := some
      { cors := appCorsConfig
        mounts := [("/static", { directory := "app/static" }, "static")]
        routes := [] }
    templatesVal := some { directory := "app/templates" } }

/-- A sample request used in lifecycle witnesses. -/
def reqW : Request :=
  { origin := none, method := "GET", headers := [], path := "/" }

/-- Claim C1: with the wildcard policy built on lines 7-9 of `app.py`,
every origin, every method, and every header set is permitted, no
origin/method/header combination is rejected, and the response carries
a cross-origin header permitting the origin (the wildcard grant). -/
theorem cors_wildcard_allows_all (o m p : String) (hs : List String) :
    originAllowed appCorsConfig o = true
    ∧ methodAllowed appCorsConfig m = true
    ∧ headersAllowed appCorsConfig hs = true
    ∧ corsRejects appCorsConfig
        { origin := some o, method := m, headers := hs, path := p } = false
    ∧ ("Access-Control-Allow-Origin", "*") ∈
        corsResponseHeaders appCorsConfig
          { origin := some o, method := m, headers := hs, path := p } := by
  have hOrigin : originAllowed appCorsConfig o = true := by
    simp [originAllowed, appCorsConfig]
  have hMethod : methodAllowed appCorsConfig m = true := by
    simp [methodAllowed, appCorsConfig]
  have hHeaders : headersAllowed appCorsConfig hs = true := by
    simp only [headersAllowed, List.all_eq_true]
    intro x _
    simp [headerAllowed, appCorsConfig]
  refine ⟨hOrigin, hMethod, hHeaders, ?_, ?_⟩
  · simp [corsRejects, hOrigin, hMethod, hHeaders]
  · simp [corsResponseHeaders, appCorsConfig]

/-- Claim C9: the middleware is configured without the credentials
option, so the policy keeps the default `false` and no response ever
carries the credentials-granting cross-origin header. -/
theorem cors_never_grants_credentials (r : Request) :
    appCorsConfig.allow_credentials = false
    ∧ (corsResponseHeaders appCorsConfig r).all
        (fun kv => !(kv.1 == "Access-Control-Allow-Credentials")) = true := by
  refine ⟨rfl, ?_⟩
  cases hO : r.origin with
  | none => simp [corsResponseHeaders, hO]
  | some o => simp [corsResponseHeaders, hO, appCorsConfig]

/-- Claim C2: when the static-assets directory `app/static` does not
exist, running the module body of `app.py` fails fast with a startup
error, and never yields an application state that could serve
requests. -/
theorem missing_static_dir_fails_fast (fs : FileSystem)
    (h : fs.isDir "app/static" = false) :
    (∃ msg, moduleRun fs = Except.error msg)
    ∧ ∀ s, moduleRun fs ≠ Except.ok s := by
  have hRun : moduleRun fs =
      Except.error ("Directory does not exist: " ++ "app/static") := by
    simp only [moduleRun, stmtCreateApp, stmtMountStatic, StaticFiles.build, h]
    rfl
  exact ⟨⟨_, hRun⟩, fun s hs => by rw [hRun] at hs; exact Except.noConfusion hs⟩

/-- Witness for claim C2: on the empty filesystem, where `app/static`
does not exist, the module body ends in a startup error. -/
theorem missing_static_dir_fails_fast_witness :
    ∃ msg, moduleRun fsEmpty = Except.error msg :=
  (missing_static_dir_fails_fast fsEmpty (by rfl)).1

/-- Counterexample to claim C3: on a filesystem where the templates
directory `app/templates` does not exist (but `app/static` does),
running the module body of `app.py` succeeds — construction of the
template renderer performs no directory check, so startup does not
fail fast. -/
theorem missing_templates_dir_counterexample :
    FileSystem.isDir fsStaticOnly "app/templates" = false
    ∧ moduleRun fsStaticOnly =
        Except.ok
          { appVal := some
              { cors := appCorsConfig
                mounts := [("/static", { directory := "app/static" }, "static")]
                routes := [] }
            templatesVal := some { directory := "app/templates" } } := by
  constructor
  · rfl
  · rfl

/-- Claim C3 (amended): a missing templates directory does not cause a
startup error; startup succeeds whenever the static-assets directory
exists, and the template renderer is still constructed, deferring all
directory access to the external templating collaborator. -/
theorem missing_templates_dir_startup_ok (fs : FileSystem)
    (_hT : fs.isDir "app/templates" = false)
    (hS : fs.isDir "app/static" = true) :
    ∃ s, moduleRun fs = Except.ok s
      ∧ s.templatesVal = some (Jinja2Templates.build "app/templates") := by
  refine ⟨stmtTemplates
      { appVal := some ((createApp appCorsConfig).mountStatic "/static"
          { directory := "app/static" } "static")
        templatesVal := none }, ?_, rfl⟩
  simp only [moduleRun, stmtCreateApp, stmtMountStatic, StaticFiles.build, hS]
  rfl

/-- Witness for the amended claim C3: on the filesystem holding only
`app/static`, startup succeeds and the template renderer is
constructed. -/
theorem missing_templates_dir_startup_ok_witness :
    ∃ s, moduleRun fsStaticOnly = Except.ok s
      ∧ s.templatesVal = some (Jinja2Templates.build "app/templates") :=
  missing_templates_dir_startup_ok fsStaticOnly (by rfl) (by rfl)

/-- Claim C4: when both configured directories exist, running the
module body of `app.py` succeeds and yields a state in which both the
application handle and the template renderer are present (non-null). -/
theorem valid_dirs_construction_ok (fs : FileSystem)
    (hS : fs.isDir "app/static" = true)
    (_hT : fs.isDir "app/templates" = true) :
    ∃ a t, moduleRun fs =
        Except.ok { appVal := some a, templatesVal := some t } := by
  refine ⟨(createApp appCorsConfig).mountStatic "/static"
      { directory := "app/static" } "static",
    Jinja2Templates.build "app/templates", ?_⟩
  simp only [moduleRun, stmtCreateApp, stmtMountStatic, StaticFiles.build, hS]
  rfl

/-- Witness for claim C4: on the filesystem holding both directories,
construction succeeds with both values present. -/
theorem valid_dirs_construction_ok_witness :
    ∃ a t, moduleRun fsBoth =
        Except.ok { appVal := some a, templatesVal := some t } :=
  valid_dirs_construction_ok fsBoth (by rfl) (by rfl)

/-- Claim C5: under the static mount, a relative path naming an
existing file is answered with status 200 and that file's exact bytes;
a path naming no file is answered with the not-found status 404; the
status is never a server error (it is always below 500). -/
theorem static_mount_file_serving (fs : FileSystem) (s : StaticFilesApp)
    (rel : String) :
    (∀ b, fs.lookup (s.directory ++ "/" ++ rel) = some (FSNode.file b) →
        staticResponse fs s rel = { status := 200, body := b, headers := [] })
    ∧ (isFileAt fs (s.directory ++ "/" ++ rel) = false →
        staticResponse fs s rel = { status := 404, body := [], headers := [] })
    ∧ (staticResponse fs s rel).status < 500 := by
  refine ⟨?_, ?_, ?_⟩
  · intro b hb
    simp [staticResponse, hb]
  · intro hnot
    unfold staticResponse
    unfold isFileAt at hnot
    cases hl : fs.lookup (s.directory ++ "/" ++ rel) with
    | none => rfl
    | some node =>
        cases node with
        | dir => rfl
        | file bytes => rw [hl] at hnot; simp at hnot
  · unfold staticResponse
    cases hl : fs.lookup (s.directory ++ "/" ++ rel) with
    | none => simp
    | some node => cases node <;> simp

/-- Witness for claim C5: on the concrete filesystem, a request for
the existing `logo.png` returns its bytes with status 200 and a
request for a missing file returns status 404. -/
theorem static_mount_file_serving_witness :
    staticResponse fsBoth { directory := "app/static" } "logo.png" =
      { status := 200, body := [137, 80, 78, 71], headers := [] }
    ∧ staticResponse fsBoth { directory := "app/static" } "missing.png" =
      { status := 404, body := [], headers := [] } :=
  ⟨(static_mount_file_serving fsBoth { directory := "app/static" }
      "logo.png").1 [137, 80, 78, 71] (by rfl),
   (static_mount_file_serving fsBoth { directory := "app/static" }
      "missing.png").2.1 (by rfl)⟩

/-- Claim C6: two invocations of `create_application` in one process
yield distinct handles, and a registration call performed through
either handle leaves the other handle unchanged — no shared mutable
state between the two. -/
theorem create_application_handles_independent (p0 : ProcState)
    (c c' : CORSConfig) (r : String) :
    let q1 := create_application p0 c
    let q2 := create_application q1.1 c'
    q1.2 ≠ q2.2
    ∧ getHandle (registerOn q2.1 q2.2 r) q1.2 = getHandle q2.1 q1.2
    ∧ getHandle (registerOn q2.1 q1.2 r) q2.2 = getHandle q2.1 q2.2 := by
  intro q1 q2
  have h1 : q1.2 = p0.length := rfl
  have h2 : q2.2 = p0.length + 1 := by
    simp [q2, q1, create_application]
  have hne : q1.2 ≠ q2.2 := by
    rw [h1, h2]
    omega
  refine ⟨hne, ?_, ?_⟩
  · exact registerOn_other q2.1 q2.2 q1.2 r fun hc => hne hc.symm
  · exact registerOn_other q2.1 q1.2 q2.2 r hne

/-- Claim C7: in every possible run of the shell lifecycle starting
unconfigured, the configuration step occurs at most once; whenever the
run serves any request, the configuration step occurred exactly once
and it was the very first event; and no lifecycle step ever leads back
to the unconfigured state (the transition is one-way). -/
theorem shell_configured_once_one_way (es : List ShellEvent)
    (s' : ShellPhase)
    (h : shellRun ShellPhase.unconfigured es = some s') :
    es.countP (fun e => isConfigureEvent e) ≤ 1
    ∧ ((∃ e ∈ es, isServeEvent e = true) →
        es.countP (fun e => isConfigureEvent e) = 1
        ∧ es.head? = some ShellEvent.configure)
    ∧ (∀ s e, shellStep s e = none
        ∨ shellStep s e = some ShellPhase.configured) := by
  have hOneWay : ∀ s e, shellStep s e = none
      ∨ shellStep s e = some ShellPhase.configured := by
    intro s e
    cases s <;> cases e <;> simp [shellStep]
  cases es with
  | nil =>
      refine ⟨by simp, ?_, hOneWay⟩
      rintro ⟨e, he, -⟩
      simp at he
  | cons e0 rest =>
      cases e0 with
      | configure =>
          simp only [shellRun, shellStep] at h
          have h0 : rest.countP (fun e => isConfigureEvent e) = 0 :=
            shellRun_configured_no_configure rest s' h
          have hcount : (ShellEvent.configure :: rest).countP
              (fun e => isConfigureEvent e) = 1 := by
            rw [List.countP_cons, h0]
            rfl
          exact ⟨le_of_eq hcount, fun _ => ⟨hcount, rfl⟩, hOneWay⟩
      | register r => simp [shellRun, shellStep] at h
      | serve req => simp [shellRun, shellStep] at h

/-- Witness for claim C7: the concrete run that configures and then
serves one request has exactly one configuration event, and it comes
first. -/
theorem shell_configured_once_one_way_witness :
    List.countP (fun e => isConfigureEvent e)
        [ShellEvent.configure, ShellEvent.serve reqW] = 1
    ∧ List.head? [ShellEvent.configure, ShellEvent.serve reqW] =
        some ShellEvent.configure :=
  (shell_configured_once_one_way
      [ShellEvent.configure, ShellEvent.serve reqW]
      ShellPhase.configured (by rfl)).2.1
    ⟨ShellEvent.serve reqW, by simp, rfl⟩

/-- On a successful run of the module body, the static directory
existed and the resulting state is exactly the one the three
statements produce. -/
theorem moduleRun_ok_inv (fs : FileSystem) (s : ModuleState)
    (h : moduleRun fs = Except.ok s) :
    fs.isDir "app/static" = true
    ∧ s = stmtTemplates
        { appVal := some ((createApp appCorsConfig).mountStatic "/static"
            { directory := "app/static" } "static")
          templatesVal := none } := by
  cases hd : FileSystem.isDir fs "app/static" with
  | false =>
      have hrun : moduleRun fs =
          Except.error ("Directory does not exist: " ++ "app/static") := by
        simp only [moduleRun, stmtCreateApp, stmtMountStatic,
          StaticFiles.build, hd]
        rfl
      rw [hrun] at h
      exact Except.noConfusion h
  | true =>
      have hrun : moduleRun fs = Except.ok (stmtTemplates
          { appVal := some ((createApp appCorsConfig).mountStatic "/static"
              { directory := "app/static" } "static")
            templatesVal := none }) := by
        simp only [moduleRun, stmtCreateApp, stmtMountStatic,
          StaticFiles.build, hd]
        rfl
      rw [hrun] at h
      injection h with h2
      exact ⟨rfl, h2.symm⟩

/-- Claim C8: the module body of `app.py` is a function of the
filesystem alone — the ambient environment and command line are
ignored, so two startup invocations under identical filesystem
contents configure identically — and every successful run installs the
fixed configuration: the wildcard policy, the single static mount of
`app/static` at `/static`, and the template directory
`app/templates`. -/
theorem configuration_surface_fixed (fs : FileSystem)
    (env1 env2 : List (String × String)) (argv1 argv2 : List String) :
    moduleRunWithEnv fs env1 argv1 = moduleRunWithEnv fs env2 argv2
    ∧ ∀ s, moduleRun fs = Except.ok s →
        s.appVal = some
          { cors := appCorsConfig
            mounts := [("/static", { directory := "app/static" }, "static")]
            routes := [] }
        ∧ s.templatesVal = some { directory := "app/templates" } := by
  refine ⟨rfl, ?_⟩
  intro s hsok
  obtain ⟨-, hs⟩ := moduleRun_ok_inv fs s hsok
  subst hs
  exact ⟨rfl, rfl⟩

/-- Witness for claim C8: the successful run on the concrete
filesystem carries exactly the fixed configuration. -/
theorem configuration_surface_fixed_witness :
    msBoth.appVal = some
      { cors := appCorsConfig
        mounts := [("/static", { directory := "app/static" }, "static")]
        routes := [] }
    ∧ msBoth.templatesVal = some { directory := "app/templates" } :=
  (configuration_surface_fixed fsBoth [] [] [] []).2 msBoth (by rfl)

/-- The module state after line 11 on the concrete filesystem, before
the template renderer exists. -/
def msMount : ModuleState :=
  { appVal := some
      { cors := appCorsConfig
        mounts := [("/static", { directory := "app/static" }, "static")]
        routes := [] }
    templatesVal := none }

/-- Claim C10: constructing the template renderer (line 12 of
`app.py`) leaves the application value untouched: the statement only
sets the separate `templates` binding, so the application value after
the statement equals the value before it, also along the full module
run. -/
theorem templates_construction_frames_app (s : ModuleState)
    (fs : FileSystem) :
    (stmtTemplates s).appVal = s.appVal
    ∧ ∀ s2, moduleRunThroughMount fs = Except.ok s2 →
        moduleRun fs = Except.ok (stmtTemplates s2)
        ∧ (stmtTemplates s2).appVal = s2.appVal := by
  refine ⟨rfl, ?_⟩
  intro s2 h2
  simp only [moduleRunThroughMount] at h2
  constructor
  · simp only [moduleRun, h2]
    rfl
  · rfl

/-- Witness for claim C10: on the concrete filesystem, the full run is
the mount-time state with only the templates value added, and the
application value is unchanged by the templates statement. -/
theorem templates_construction_frames_app_witness :
    moduleRun fsBoth = Except.ok (stmtTemplates msMount)
    ∧ (stmtTemplates msMount).appVal = msMount.appVal :=
  (templates_construction_frames_app msMount fsBoth).2 msMount (by rfl)
